import Mathlib

/-!
Shallow embedding of `hotline/database/models.py` (friendhotline.com).

The Python file is declarative peewee schema glue: six model classes
(`Number`, `Hotline`, `HotlineMember`, `HotlineAdmin`, `AuditLog`,
`BlockList`), a custom `SerializableField` text adapter, and a shared
`db = peewee.Proxy()` handle.  We embed the field declarations as data
(kind, nullability, uniqueness, default), the adapter as functions, and
each model's create/query behaviour as explicit state passing over lists
of rows, with constraint failures surfaced as `DBError` values.
-/

namespace Models

/-- Kinds of peewee column declarations used in `models.py`. -/
inductive FieldKind where
  | text
  | char
  | boolean
  | integer
  | dateTime
  | foreignKey (target : String)
  | serializable (cls : String)
deriving DecidableEq, Repr

/-- Default value attached to a column declaration: none, a constant
string (`default="US"`), or `default=datetime.datetime.utcnow`. -/
inductive DefaultSpec where
  | noDefault
  | const (s : String)
  | utcnow
deriving DecidableEq, Repr

/-- One column declaration: name, kind, `null=` flag, `unique=` flag and
its default, exactly as written in `models.py`. -/
structure FieldDecl where
  name : String
  kind : FieldKind
  nullable : Bool
  unique : Bool
  defaultVal : DefaultSpec
deriving DecidableEq, Repr

/-- Look a column declaration up by name. -/
def fieldNamed (fs : List FieldDecl) (n : String) : Option FieldDecl :=
  fs.find? (fun f => f.name == n)

/-- Whether a column is persisted through the `SerializableField`
adapter (write via `serialize()`, read via `deserialize(text)`). -/
def storesViaSerializableAdapter (f : FieldDecl) : Bool :=
  match f.kind with
  | .serializable _ => true
  | _ => false

/-- `class Number(BaseModel)`: `number = TextField()`,
`country = CharField(default="US")`, `features = TextField(index=False)`. -/
def Number.fields : List FieldDecl :=
  [⟨"number", .text, false, false, .noDefault⟩,
   ⟨"country", .char, false, false, .const "US"⟩,
   ⟨"features", .text, false, false, .noDefault⟩]

/-- `Number.add_index(Number.number)`. -/
def Number.indexes : List (List String) := [["number"]]

/-- `class Hotline(BaseModel)`: `name = TextField()`,
`slug = CharField(unique=True)`, `primary_number = TextField(null=True)`,
`primary_number_id = ForeignKeyField(Number, null=True)`,
`country = CharField(default="US")`,
`voice_greeting = TextField(null=True, index=False)`. -/
def Hotline.fields : List FieldDecl :=
  [⟨"name", .text, false, false, .noDefault⟩,
   ⟨"slug", .char, false, true, .noDefault⟩,
   ⟨"primary_number", .text, true, false, .noDefault⟩,
   ⟨"primary_number_id", .foreignKey "Number", true, false, .noDefault⟩,
   ⟨"country", .char, false, false, .const "US"⟩,
   ⟨"voice_greeting", .text, true, false, .noDefault⟩]

/-- `Hotline.add_index(Hotline.slug)` and
`Hotline.add_index(Hotline.primary_number)`. -/
def Hotline.indexes : List (List String) := [["slug"], ["primary_number"]]

/-- `class HotlineMember(BaseModel)`: `hotline = ForeignKeyField(Hotline)`,
`name = TextField()`, `number = TextField()`,
`verified = BooleanField()`. -/
def HotlineMember.fields : List FieldDecl :=
  [⟨"hotline", .foreignKey "Hotline", false, false, .noDefault⟩,
   ⟨"name", .text, false, false, .noDefault⟩,
   ⟨"number", .text, false, false, .noDefault⟩,
   ⟨"verified", .boolean, false, false, .noDefault⟩]

/-- `HotlineMember.add_index(hotline, verified)` and
`HotlineMember.add_index(number, verified)`. -/
def HotlineMember.indexes : List (List String) :=
  [["hotline", "verified"], ["number", "verified"]]

/-- `class HotlineAdmin(BaseModel)`: `hotline = ForeignKeyField(Hotline)`,
`user_id = CharField(null=True)`, `user_name = TextField(null=True)`,
`user_email = TextField()`. -/
def HotlineAdmin.fields : List FieldDecl :=
  [⟨"hotline", .foreignKey "Hotline", false, false, .noDefault⟩,
   ⟨"user_id", .char, true, false, .noDefault⟩,
   ⟨"user_name", .text, true, false, .noDefault⟩,
   ⟨"user_email", .text, false, false, .noDefault⟩]

/-- `HotlineAdmin.add_index(HotlineAdmin.user_id)`. -/
def HotlineAdmin.indexes : List (List String) := [["user_id"]]

/-- `class AuditLog(BaseModel)`:
`timestamp = DateTimeField(default=datetime.datetime.utcnow)`,
`kind = IntegerField()`, `description = TextField(null=True)`,
`hotline = ForeignKeyField(Hotline, null=True)`,
`user = CharField(null=True)`, `metadata = TextField(null=True)`,
`reporter_number = TextField(null=True, index=False)`. -/
def AuditLog.fields : List FieldDecl :=
  [⟨"timestamp", .dateTime, false, false, .utcnow⟩,
   ⟨"kind", .integer, false, false, .noDefault⟩,
   ⟨"description", .text, true, false, .noDefault⟩,
   ⟨"hotline", .foreignKey "Hotline", true, false, .noDefault⟩,
   ⟨"user", .char, true, false, .noDefault⟩,
   ⟨"metadata", .text, true, false, .noDefault⟩,
   ⟨"reporter_number", .text, true, false, .noDefault⟩]

/-- `AuditLog.add_index(AuditLog.hotline, AuditLog.timestamp)`. -/
def AuditLog.indexes : List (List String) := [["hotline", "timestamp"]]

/-- `class BlockList(BaseModel)`:
`timestamp = DateTimeField(default=datetime.datetime.utcnow)`,
`hotline = ForeignKeyField(Hotline)`, `number = TextField()`,
`blocked_by = TextField(null=True)`. -/
def BlockList.fields : List FieldDecl :=
  [⟨"timestamp", .dateTime, false, false, .utcnow⟩,
   ⟨"hotline", .foreignKey "Hotline", false, false, .noDefault⟩,
   ⟨"number", .text, false, false, .noDefault⟩,
   ⟨"blocked_by", .text, true, false, .noDefault⟩]

/-- Errors surfaced by the relational backend or by using the shared
handle incorrectly. -/
inductive DBError where
  | uniqueViolation (table col : String)
  | notNullViolation (table col : String)
  | uninitializedProxy
  | alreadyBound
  | attributeError (msg : String)
deriving DecidableEq, Repr

/-- A serialization-capable class `C` in the sense of the adapter:
`serialize() -> text` on instances and a class-level
`deserialize(text) -> C`. -/
structure SerializableClass (α : Type) where
  serialize : α → String
  deserialize : String → α

/-- `SerializableField.db_value(self, value): return value.serialize()`. -/
def SerializableField.db_value (C : SerializableClass α) (v : α) : String :=
  C.serialize v

/-- `SerializableField.python_value(self, value): return self._cls.deserialize(value)`. -/
def SerializableField.python_value (C : SerializableClass α) (s : String) : α :=
  C.deserialize s

/-- `db_value` as it executes on a possibly-`None` Python value: the body
`value.serialize()` accesses the attribute unconditionally, so `None`
raises an `AttributeError` instead of being stored as SQL NULL. -/
def SerializableField.db_value_dyn (C : SerializableClass α) :
    Option α → Except DBError String
  | some v => .ok (C.serialize v)
  | none => .error (.attributeError "NoneType object has no attribute serialize")

/-- `python_value` as it executes on a raw database cell (text or NULL
read back as `None`): the body passes the cell to `self._cls.deserialize`
unconditionally, with no null check or error handling of its own. -/
def SerializableField.python_value_dyn (deserialize : Option String → Except DBError α)
    (cell : Option String) : Except DBError α :=
  deserialize cell

/-- A plain `TextField` column stores the string unchanged and reads it
back unchanged. -/
def TextField.db_value (v : String) : String := v

/-- Read conversion of a plain `TextField`. -/
def TextField.python_value (v : String) : String := v

/-- Modelled from the spec: `db = peewee.Proxy()` — the shared
process-wide database handle.  The `Proxy` class itself is library code
not present in this repository; per the spec it is declared once in an
unbound state, must be bound to a concrete connection exactly once
before any record read/write, unbound use fails immediately, and
binding it twice produces a well-defined failure rather than silent
corruption. -/
inductive ProxyState where
  | unbound
  | bound (conn : String)
deriving DecidableEq, Repr

/-- Modelled from the spec: binding the shared handle to a concrete
connection; rebinding an already-bound handle is a well-defined
failure. -/
def Proxy.initialize : ProxyState → String → Except DBError ProxyState
  | .unbound, c => .ok (.bound c)
  | .bound _, _ => .error .alreadyBound

/-- Modelled from the spec: resolving the shared handle to its backing
connection; unbound use fails immediately. -/
def Proxy.connection : ProxyState → Except DBError String
  | .unbound => .error .uninitializedProxy
  | .bound c => .ok c

/-- A record read through the shared handle (`Meta.database = db`): the
handle must resolve before the table is consulted. -/
def dbRead (p : ProxyState) (tbl : List α) (i : Nat) : Except DBError (Option α) := do
  let _ ← Proxy.connection p
  pure tbl[i]?

/-- A record write through the shared handle: the handle must resolve
before the row is appended. -/
def dbWrite (p : ProxyState) (tbl : List α) (r : α) : Except DBError (List α) := do
  let _ ← Proxy.connection p
  pure (tbl ++ [r])

/-- A stored `Hotline` row (non-nullable columns carry plain values,
nullable ones `Option`). -/
structure HotlineRow where
  name : String
  slug : String
  primary_number : Option String
  primary_number_id : Option Nat
  country : String
  voice_greeting : Option String
deriving DecidableEq, Repr

/-- Column values supplied to a `Hotline` create; any column may be
omitted. -/
structure HotlineInput where
  name : Option String
  slug : Option String
  primary_number : Option String
  primary_number_id : Option Nat
  country : Option String
  voice_greeting : Option String
deriving DecidableEq, Repr

/-- Inserting a `Hotline`: `name` and `slug` are NOT NULL, `slug` is
declared `unique=True` so a duplicate is rejected and the table is left
unchanged, and `country` defaults to `"US"` when omitted. -/
def Hotline.create (tbl : List HotlineRow) (i : HotlineInput) :
    List HotlineRow × Option DBError :=
  match i.name, i.slug with
  | none, _ => (tbl, some (.notNullViolation "hotline" "name"))
  | _, none => (tbl, some (.notNullViolation "hotline" "slug"))
  | some nm, some sl =>
    if tbl.any (fun s => s.slug == sl) then
      (tbl, some (.uniqueViolation "hotline" "slug"))
    else
      (tbl ++ [⟨nm, sl, i.primary_number, i.primary_number_id,
                i.country.getD "US", i.voice_greeting⟩], none)

/-- A stored `HotlineMember` row. -/
structure HotlineMemberRow where
  hotline : Nat
  name : String
  number : String
  verified : Bool
deriving DecidableEq, Repr

/-- Lookup backed by `HotlineMember.add_index(hotline, verified)`. -/
def HotlineMember.queryByHotlineVerified (tbl : List HotlineMemberRow)
    (h : Nat) (v : Bool) : List HotlineMemberRow :=
  tbl.filter (fun r => r.hotline == h && r.verified == v)

/-- Lookup backed by `HotlineMember.add_index(number, verified)`. -/
def HotlineMember.queryByNumberVerified (tbl : List HotlineMemberRow)
    (n : String) (v : Bool) : List HotlineMemberRow :=
  tbl.filter (fun r => r.number == n && r.verified == v)

/-- A stored `HotlineAdmin` row: `user_id` and `user_name` are
`null=True`, `user_email` and the `hotline` reference are required. -/
structure HotlineAdminRow where
  hotline : Nat
  user_id : Option String
  user_name : Option String
  user_email : String
deriving DecidableEq, Repr

/-- Column values supplied to a `HotlineAdmin` create. -/
structure HotlineAdminInput where
  hotline : Option Nat
  user_id : Option String
  user_name : Option String
  user_email : Option String
deriving DecidableEq, Repr

/-- Inserting a `HotlineAdmin`: the `hotline` reference and `user_email`
are NOT NULL; `user_id` and `user_name` may be omitted. -/
def HotlineAdmin.create (i : HotlineAdminInput) : Except DBError HotlineAdminRow :=
  match i.hotline with
  | none => .error (.notNullViolation "hotlineadmin" "hotline_id")
  | some h =>
    match i.user_email with
    | none => .error (.notNullViolation "hotlineadmin" "user_email")
    | some e => .ok ⟨h, i.user_id, i.user_name, e⟩

/-- A stored `AuditLog` row: timestamps are modelled as naturals
(instants of `datetime.datetime.utcnow`). -/
structure AuditLogRow where
  timestamp : Nat
  kind : Int
  description : Option String
  hotline : Option Nat
  user : Option String
  metadata : Option String
  reporter_number : Option String
deriving DecidableEq, Repr

/-- Column values supplied to an `AuditLog` create. -/
structure AuditLogInput where
  timestamp : Option Nat
  kind : Option Int
  description : Option String
  hotline : Option Nat
  user : Option String
  metadata : Option String
  reporter_number : Option String
deriving DecidableEq, Repr

/-- Inserting an `AuditLog` at clock instant `now`: only `kind` is
NOT NULL without a default; an omitted `timestamp` defaults to `now`
(`default=datetime.datetime.utcnow`); all other columns are
`null=True`. -/
def AuditLog.create (now : Nat) (i : AuditLogInput) : Except DBError AuditLogRow :=
  match i.kind with
  | none => .error (.notNullViolation "auditlog" "kind")
  | some k =>
    .ok ⟨i.timestamp.getD now, k, i.description, i.hotline, i.user,
         i.metadata, i.reporter_number⟩

/-- A stored `BlockList` row. -/
structure BlockListRow where
  timestamp : Nat
  hotline : Nat
  number : String
  blocked_by : Option String
deriving DecidableEq, Repr

/-- Column values supplied to a `BlockList` create. -/
structure BlockListInput where
  timestamp : Option Nat
  hotline : Option Nat
  number : Option String
  blocked_by : Option String
deriving DecidableEq, Repr

/-- Inserting a `BlockList` row at clock instant `now`: the `hotline`
reference and `number` are NOT NULL; an omitted `timestamp` defaults to
`now` (`default=datetime.datetime.utcnow`). -/
def BlockList.create (now : Nat) (i : BlockListInput) : Except DBError BlockListRow :=
  match i.hotline, i.number with
  | none, _ => .error (.notNullViolation "blocklist" "hotline_id")
  | _, none => .error (.notNullViolation "blocklist" "number")
  | some h, some n => .ok ⟨i.timestamp.getD now, h, n, i.blocked_by⟩

/-- A sequence of `AuditLog` inserts, each tagged with the clock instant
at which it runs; failed inserts leave the table unchanged. -/
def AuditLog.runInserts (tbl : List AuditLogRow) :
    List (Nat × AuditLogInput) → List AuditLogRow
  | [] => tbl
  | (now, i) :: rest =>
    match AuditLog.create now i with
    | .ok r => AuditLog.runInserts (tbl ++ [r]) rest
    | .error _ => AuditLog.runInserts tbl rest

/-- A sequence of `BlockList` inserts, each tagged with the clock
instant at which it runs. -/
def BlockList.runInserts (tbl : List BlockListRow) :
    List (Nat × BlockListInput) → List BlockListRow
  | [] => tbl
  | (now, i) :: rest =>
    match BlockList.create now i with
    | .ok r => BlockList.runInserts (tbl ++ [r]) rest
    | .error _ => BlockList.runInserts tbl rest

/-- Whether an `Except` result is a success. -/
def exceptOk : Except DBError α → Bool
  | .ok _ => true
  | .error _ => false

/-- A tiny serialization-capable class used to instantiate the adapter
concretely: a natural is stored as that many `x` characters. -/
def natRepeatClass : SerializableClass Nat :=
  ⟨fun n => String.mk (List.replicate n 'x'), fun s => s.length⟩

/-- Across a run of `AuditLog` inserts that all omit `timestamp` and
supply `kind`, every insert succeeds and the stored timestamps extend
the table by exactly the clock instants of the inserts, in order. -/
theorem auditLog_runInserts_timestamps :
    ∀ (steps : List (Nat × AuditLogInput)) (tbl : List AuditLogRow),
      (∀ p ∈ steps, p.2.timestamp = none ∧ (p.2.kind).isSome) →
      (AuditLog.runInserts tbl steps).map AuditLogRow.timestamp
        = tbl.map AuditLogRow.timestamp ++ steps.map Prod.fst
  | [], tbl, _ => by simp [AuditLog.runInserts]
  | (now, i) :: rest, tbl, h => by
    obtain ⟨hts, hk⟩ := h (now, i) (List.mem_cons_self _ _)
    obtain ⟨k, hk'⟩ := Option.isSome_iff_exists.mp hk
    have hk2 : i.kind = some k := hk'
    have hts2 : i.timestamp = none := hts
    have hrest : ∀ p ∈ rest, p.2.timestamp = none ∧ (p.2.kind).isSome :=
      fun p hp => h p (List.mem_cons_of_mem _ hp)
    simp only [AuditLog.runInserts, AuditLog.create, hk2]
    rw [auditLog_runInserts_timestamps rest _ hrest]
    simp [hts2]

/-- Across a run of `BlockList` inserts that all omit `timestamp` and
supply `hotline` and `number`, every insert succeeds and the stored
timestamps extend the table by exactly the clock instants of the
inserts, in order. -/
theorem blockList_runInserts_timestamps :
    ∀ (steps : List (Nat × BlockListInput)) (tbl : List BlockListRow),
      (∀ p ∈ steps,
          p.2.timestamp = none ∧ (p.2.hotline).isSome ∧ (p.2.number).isSome) →
      (BlockList.runInserts tbl steps).map BlockListRow.timestamp
        = tbl.map BlockListRow.timestamp ++ steps.map Prod.fst
  | [], tbl, _ => by simp [BlockList.runInserts]
  | (now, i) :: rest, tbl, h => by
    obtain ⟨hts, hh, hn⟩ := h (now, i) (List.mem_cons_self _ _)
    obtain ⟨hv, hh'⟩ := Option.isSome_iff_exists.mp hh
    obtain ⟨nv, hn'⟩ := Option.isSome_iff_exists.mp hn
    have hh2 : i.hotline = some hv := hh'
    have hn2 : i.number = some nv := hn'
    have hts2 : i.timestamp = none := hts
    have hrest : ∀ p ∈ rest,
        p.2.timestamp = none ∧ (p.2.hotline).isSome ∧ (p.2.number).isSome :=
      fun p hp => h p (List.mem_cons_of_mem _ hp)
    simp only [BlockList.runInserts, BlockList.create, hh2, hn2]
    rw [blockList_runInserts_timestamps rest _ hrest]
    simp [hts2]

/-- Claim C1, counterexample: contrary to the claim, neither
`Number.features` nor `AuditLog.metadata` is persisted through the
serializable-field adapter — both are declared as plain `TextField`
columns, so their stored text is not produced by `serialize()` nor read
via `deserialize(text)`. -/
theorem c1_counterexample :
    (fieldNamed Number.fields "features").map storesViaSerializableAdapter
      = some false ∧
    (fieldNamed AuditLog.fields "metadata").map storesViaSerializableAdapter
      = some false := by
  decide

/-- Claim C1 (amended): `Number.features` and `AuditLog.metadata` are
declared as plain `TextField` columns, not through the §4.1
serializable-field adapter; their stored text is written and read back
unchanged, so any serialization is the caller's responsibility. -/
theorem c1_features_metadata_plain_text :
    (fieldNamed Number.fields "features").map FieldDecl.kind
      = some FieldKind.text ∧
    (fieldNamed AuditLog.fields "metadata").map FieldDecl.kind
      = some FieldKind.text ∧
    (∀ s, TextField.python_value (TextField.db_value s) = s) :=
  ⟨by decide, by decide, fun _ => rfl⟩

/-- Claim C2: for every class with `serialize()` and a class-level
`deserialize(text)` such that `deserialize` is a left inverse of
`serialize`, the adapter's write conversion followed by its read
conversion is the identity — stored instances are reconstructed
transparently on load. -/
theorem c2_serializable_roundtrip {α : Type} (C : SerializableClass α)
    (hinv : ∀ v, C.deserialize (C.serialize v) = v) (v : α) :
    SerializableField.python_value C (SerializableField.db_value C v) = v :=
  hinv v

/-- Witness for C2 at a concrete serialization-capable class and
value. -/
theorem c2_witness :
    SerializableField.python_value natRepeatClass
      (SerializableField.db_value natRepeatClass 5) = 5 :=
  c2_serializable_roundtrip natRepeatClass
    (fun v => by simp [natRepeatClass]) 5

/-- Claim C3: creating a `Hotline` whose `slug` collides with an
existing row fails with a uniqueness violation and leaves the stored
table unchanged. -/
theorem c3_hotline_slug_unique (tbl : List HotlineRow) (i : HotlineInput)
    (nm sl : String) (s : HotlineRow)
    (hnm : i.name = some nm) (hsl : i.slug = some sl)
    (hs : s ∈ tbl) (hdup : s.slug = sl) :
    Hotline.create tbl i
      = (tbl, some (DBError.uniqueViolation "hotline" "slug")) := by
  simp only [Hotline.create, hnm, hsl]
  rw [if_pos]
  exact List.any_eq_true.mpr ⟨s, hs, by simp [hdup]⟩

/-- Witness for C3: a second hotline with slug `"a"` is rejected and the
table is unchanged. -/
theorem c3_witness :
    Hotline.create [⟨"A", "a", none, none, "US", none⟩]
        ⟨some "B", some "a", none, none, none, none⟩
      = ([⟨"A", "a", none, none, "US", none⟩],
         some (DBError.uniqueViolation "hotline" "slug")) :=
  c3_hotline_slug_unique _ _ "B" "a" ⟨"A", "a", none, none, "US", none⟩
    rfl rfl (List.mem_singleton.mpr rfl) rfl

/-- Claim C4: every record read or write against the unbound shared
handle fails immediately with a well-defined error, binding the unbound
handle succeeds, and binding an already-bound handle is a well-defined
failure rather than silent corruption. -/
theorem c4_db_handle_guard (tbl : List HotlineRow) (i : Nat)
    (r : HotlineRow) (c c' : String) :
    dbRead ProxyState.unbound tbl i = .error DBError.uninitializedProxy ∧
    dbWrite ProxyState.unbound tbl r = .error DBError.uninitializedProxy ∧
    Proxy.initialize ProxyState.unbound c = .ok (ProxyState.bound c) ∧
    Proxy.initialize (ProxyState.bound c) c' = .error DBError.alreadyBound :=
  ⟨rfl, rfl, rfl, rfl⟩

/-- Claim C5: across any sequences of `AuditLog` and `BlockList` inserts
that omit `timestamp` (and supply the required columns), run at
non-decreasing clock instants, each stored `timestamp` equals the
creation instant of its insert and the stored timestamps are
monotonically non-decreasing in insertion order. -/
theorem c5_timestamp_defaults (asteps : List (Nat × AuditLogInput))
    (bsteps : List (Nat × BlockListInput))
    (ha : ∀ p ∈ asteps, p.2.timestamp = none ∧ (p.2.kind).isSome)
    (hb : ∀ p ∈ bsteps,
        p.2.timestamp = none ∧ (p.2.hotline).isSome ∧ (p.2.number).isSome)
    (hamono : List.Chain' (· ≤ ·) (asteps.map Prod.fst))
    (hbmono : List.Chain' (· ≤ ·) (bsteps.map Prod.fst)) :
    (AuditLog.runInserts [] asteps).map AuditLogRow.timestamp
      = asteps.map Prod.fst ∧
    (BlockList.runInserts [] bsteps).map BlockListRow.timestamp
      = bsteps.map Prod.fst ∧
    List.Chain' (· ≤ ·)
      ((AuditLog.runInserts [] asteps).map AuditLogRow.timestamp) ∧
    List.Chain' (· ≤ ·)
      ((BlockList.runInserts [] bsteps).map BlockListRow.timestamp) := by
  have h1 := auditLog_runInserts_timestamps asteps [] ha
  have h2 := blockList_runInserts_timestamps bsteps [] hb
  simp only [List.map_nil, List.nil_append] at h1 h2
  exact ⟨h1, h2, h1 ▸ hamono, h2 ▸ hbmono⟩

/-- Witness for C5: two audit-log inserts and two blocklist inserts at
instants 3 then 7, each omitting `timestamp`. -/
theorem c5_witness :
    (AuditLog.runInserts []
        [(3, ⟨none, some 1, none, none, none, none, none⟩),
         (7, ⟨none, some 2, none, none, none, none, none⟩)]).map
      AuditLogRow.timestamp = [3, 7] ∧
    (BlockList.runInserts []
        [(3, ⟨none, some 1, some "n1", none⟩),
         (7, ⟨none, some 1, some "n2", none⟩)]).map
      BlockListRow.timestamp = [3, 7] :=
  ⟨(c5_timestamp_defaults
      [(3, ⟨none, some 1, none, none, none, none, none⟩),
       (7, ⟨none, some 2, none, none, none, none, none⟩)]
      [(3, ⟨none, some 1, some "n1", none⟩),
       (7, ⟨none, some 1, some "n2", none⟩)]
      (by decide) (by decide) (by simp [List.chain'_cons])
      (by simp [List.chain'_cons])).1,
   (c5_timestamp_defaults
      [(3, ⟨none, some 1, none, none, none, none, none⟩),
       (7, ⟨none, some 2, none, none, none, none, none⟩)]
      [(3, ⟨none, some 1, some "n1", none⟩),
       (7, ⟨none, some 1, some "n2", none⟩)]
      (by decide) (by decide) (by simp [List.chain'_cons])
      (by simp [List.chain'_cons])).2.1⟩

/-- Claim C6: a `HotlineAdmin` can be created with `user_id` and
`user_name` omitted, creating one without a `user_email` fails, every
stored row carries the supplied `user_email` and `hotline` reference,
and the table is indexed on `user_id`. -/
theorem c6_hotline_admin_constraints (h : Nat) (uid uname : Option String)
    (e : String) (i : HotlineAdminInput) (hmail : i.user_email = none) :
    HotlineAdmin.create ⟨some h, uid, uname, some e⟩ = .ok ⟨h, uid, uname, e⟩ ∧
    exceptOk (HotlineAdmin.create i) = false ∧
    (∀ j r, HotlineAdmin.create j = .ok r →
        j.user_email = some r.user_email ∧ j.hotline = some r.hotline) ∧
    ["user_id"] ∈ HotlineAdmin.indexes := by
  refine ⟨rfl, ?_, ?_, by decide⟩
  · cases hh : i.hotline <;> simp [HotlineAdmin.create, hh, hmail, exceptOk]
  · intro j r hjr
    cases hh : j.hotline with
    | none => simp [HotlineAdmin.create, hh] at hjr
    | some hv =>
      cases he : j.user_email with
      | none => simp [HotlineAdmin.create, hh, he] at hjr
      | some ev =>
        simp only [HotlineAdmin.create, hh, he] at hjr
        cases hjr
        exact ⟨rfl, rfl⟩

/-- Witness for C6: creation with `user_id`/`user_name` omitted
succeeds, creation without `user_email` fails. -/
theorem c6_witness :
    HotlineAdmin.create ⟨some 1, none, none, some "a@b.c"⟩
      = .ok ⟨1, none, none, "a@b.c"⟩ ∧
    exceptOk (HotlineAdmin.create ⟨some 1, some "u", some "n", none⟩)
      = false :=
  ⟨(c6_hotline_admin_constraints 1 none none "a@b.c"
      ⟨some 1, some "u", some "n", none⟩ rfl).1,
   (c6_hotline_admin_constraints 1 none none "a@b.c"
      ⟨some 1, some "u", some "n", none⟩ rfl).2.1⟩

/-- Claim C7: an `AuditLog` create with `kind` supplied succeeds no
matter which other columns are omitted (the `timestamp` defaulting to
the creation instant), a create without `kind` fails, `kind` is the only
non-nullable column without a default and is an integer column, and the
table is indexed on `(hotline, timestamp)`. -/
theorem c7_auditlog_requirements (now : Nat) (k : Int) (i : AuditLogInput)
    (hk : i.kind = some k) :
    AuditLog.create now i
      = .ok ⟨(i.timestamp).getD now, k, i.description, i.hotline, i.user,
             i.metadata, i.reporter_number⟩ ∧
    (∀ now2 j, j.kind = none → exceptOk (AuditLog.create now2 j) = false) ∧
    (AuditLog.fields.filter
        (fun f => !f.nullable && f.defaultVal == DefaultSpec.noDefault)).map
      FieldDecl.name = ["kind"] ∧
    (fieldNamed AuditLog.fields "kind").map FieldDecl.kind
      = some FieldKind.integer ∧
    ["hotline", "timestamp"] ∈ AuditLog.indexes := by
  refine ⟨by simp [AuditLog.create, hk], ?_, by decide, by decide, by decide⟩
  intro now2 j hj
  simp [AuditLog.create, hj, exceptOk]

/-- Witness for C7: an audit-log create supplying only `kind`. -/
theorem c7_witness :
    AuditLog.create 11 ⟨none, some 4, none, none, none, none, none⟩
      = .ok ⟨11, 4, none, none, none, none, none⟩ :=
  (c7_auditlog_requirements 11 4
    ⟨none, some 4, none, none, none, none, none⟩ rfl).1

/-- Claim C8: querying `HotlineMember` by `(hotline, verified)` or
`(number, verified)` returns exactly the rows whose fields equal the
queried values, and permuting the stored rows (any insertion order)
permutes the result set accordingly, leaving it the same as a set. -/
theorem c8_member_query (tbl tbl2 : List HotlineMemberRow) (h : Nat)
    (n : String) (v : Bool) (r : HotlineMemberRow)
    (hperm : tbl.Perm tbl2) :
    (r ∈ HotlineMember.queryByHotlineVerified tbl h v ↔
        r ∈ tbl ∧ r.hotline = h ∧ r.verified = v) ∧
    (r ∈ HotlineMember.queryByNumberVerified tbl n v ↔
        r ∈ tbl ∧ r.number = n ∧ r.verified = v) ∧
    (HotlineMember.queryByHotlineVerified tbl h v).Perm
      (HotlineMember.queryByHotlineVerified tbl2 h v) ∧
    (HotlineMember.queryByNumberVerified tbl n v).Perm
      (HotlineMember.queryByNumberVerified tbl2 n v) := by
  refine ⟨?_, ?_, hperm.filter _, hperm.filter _⟩ <;>
    simp [HotlineMember.queryByHotlineVerified,
          HotlineMember.queryByNumberVerified, List.mem_filter, and_assoc]

/-- Witness for C8: a two-row table and its transposition give the same
query result. -/
theorem c8_witness :
    (⟨1, "A", "n1", true⟩ ∈ HotlineMember.queryByHotlineVerified
        [⟨1, "A", "n1", true⟩, ⟨2, "B", "n2", false⟩] 1 true ↔
      ⟨1, "A", "n1", true⟩ ∈
          ([⟨1, "A", "n1", true⟩, ⟨2, "B", "n2", false⟩] :
            List HotlineMemberRow) ∧
        (1 : Nat) = 1 ∧ true = true) ∧
    (HotlineMember.queryByHotlineVerified
        [⟨1, "A", "n1", true⟩, ⟨2, "B", "n2", false⟩] 1 true).Perm
      (HotlineMember.queryByHotlineVerified
        [⟨2, "B", "n2", false⟩, ⟨1, "A", "n1", true⟩] 1 true) :=
  ⟨(c8_member_query [⟨1, "A", "n1", true⟩, ⟨2, "B", "n2", false⟩]
      [⟨2, "B", "n2", false⟩, ⟨1, "A", "n1", true⟩] 1 "n1" true
      ⟨1, "A", "n1", true⟩ (List.Perm.swap _ _ _)).1,
   (c8_member_query [⟨1, "A", "n1", true⟩, ⟨2, "B", "n2", false⟩]
      [⟨2, "B", "n2", false⟩, ⟨1, "A", "n1", true⟩] 1 "n1" true
      ⟨1, "A", "n1", true⟩ (List.Perm.swap _ _ _)).2.2.1⟩

/-- Claim C9: the adapter performs no null handling of its own — its
write conversion calls `serialize()` unconditionally, so a `None` value
raises instead of being stored, and its read conversion passes the raw
cell (including NULL read back as `None`) straight to the target class's
`deserialize`. -/
theorem c9_adapter_no_null_handling {α : Type} (C : SerializableClass α)
    (d : Option String → Except DBError α) (cell : Option String) (v : α) :
    SerializableField.db_value_dyn C none
      = .error (DBError.attributeError
          "NoneType object has no attribute serialize") ∧
    SerializableField.db_value_dyn C (some v) = .ok (C.serialize v) ∧
    SerializableField.python_value_dyn d cell = d cell :=
  ⟨rfl, rfl, rfl⟩

/-- Claim C10: a `Hotline` created without an explicit `country` stores
`country = "US"`; the declared default is the constant `"US"`, the same
default as `Number.country`. -/
theorem c10_hotline_country_default (tbl : List HotlineRow)
    (i : HotlineInput) (r : HotlineRow) (hc : i.country = none)
    (hr : r ∈ (Hotline.create tbl i).1) (hnew : r ∉ tbl) :
    r.country = "US" ∧
    (fieldNamed Hotline.fields "country").map FieldDecl.defaultVal
      = some (DefaultSpec.const "US") ∧
    (fieldNamed Hotline.fields "country").map FieldDecl.defaultVal
      = (fieldNamed Number.fields "country").map FieldDecl.defaultVal := by
  refine ⟨?_, by decide, by decide⟩
  cases hnm : i.name with
  | none => rw [Hotline.create] at hr; simp [hnm] at hr; exact absurd hr hnew
  | some nm =>
    cases hsl : i.slug with
    | none =>
      rw [Hotline.create] at hr; simp [hnm, hsl] at hr; exact absurd hr hnew
    | some sl =>
      rw [Hotline.create] at hr
      simp only [hnm, hsl] at hr
      by_cases hdup : tbl.any (fun s => s.slug == sl)
      · simp [hdup] at hr; exact absurd hr hnew
      · simp [hdup, List.mem_append] at hr
        rcases hr with hr | hr
        · exact absurd hr hnew
        · rw [hr]; simp [hc]

/-- Witness for C10: the hotline created into an empty table without a
`country` stores `"US"`. -/
theorem c10_witness :
    (⟨"A", "a", none, none, "US", none⟩ : HotlineRow).country = "US" :=
  (c10_hotline_country_default [] ⟨some "A", some "a", none, none, none, none⟩
    ⟨"A", "a", none, none, "US", none⟩ rfl (by decide)
    (List.not_mem_nil _)).1

end Models
